import Mathlib

/-!
Shallow embedding of the forecast-aggregation core of `weather_app_new.py`
(a Streamlit weather dashboard).  Times are naive local timestamps measured
in whole seconds; a pandas `datetime64` value `t` is represented by that
number of seconds, so `t.dt.hour = t / 3600 % 24` and `t.dt.date` is the
day number `t / 86400`.  Temperatures, humidities and cloud percentages are
rationals.  A pandas float that can be NaN (the result of `Series.mean()`
on an empty selection) is represented by the type `PVal` below.
-/

namespace WeatherApp

/-- A float produced by pandas reductions: either a real number or NaN
(`Series.mean()` over an empty selection returns NaN, and arithmetic on
NaN yields NaN). -/
inductive PVal where
  | NaN : PVal
  | num : ℚ → PVal
deriving Repr, DecidableEq

/-- pandas `Series.mean()`: NaN on an empty series, else the arithmetic mean. -/
def seriesMean (xs : List ℚ) : PVal :=
  if xs.isEmpty then PVal.NaN else PVal.num (xs.sum / xs.length)

/-- Float subtraction with NaN propagation (`day_temp_avg - night_temp_avg`). -/
def PVal.sub : PVal → PVal → PVal
  | PVal.num a, PVal.num b => PVal.num (a - b)
  | _, _ => PVal.NaN

/-- The pandas accessor `t.dt.hour` for a naive timestamp in seconds. -/
def hourOf (t : Nat) : Nat := t / 3600 % 24

/-- The pandas accessor `t.dt.date` for a naive timestamp in seconds, as a day number. -/
def dateOf (t : Nat) : Nat := t / 86400

/-- Line 148: `lambda h: Day if 6 <= h < 18 else Night` (with Day and Night as string labels). -/
def periodOfHour (h : Nat) : String :=
  if 6 ≤ h ∧ h < 18 then "Day" else "Night"

/-- One row of the forecast DataFrame `df_weather` (built at lines 442-444
with columns time, temp, description, humidity, wind_speed, feels_like,
wind_direction, clouds).  The derived columns `hour`, `period`, `date`
added in place by `agg_day_night` are `Option`-valued: `none` means the
column is absent from the frame. -/
structure Row where
  time : Nat
  temp : ℚ
  description : String
  humidity : ℚ
  wind_speed : ℚ
  feels_like : ℚ
  wind_direction : ℤ
  clouds : ℚ
  hour : Option Nat := none
  period : Option String := none
  date : Option Nat := none
deriving Repr, DecidableEq

/-- The three column assignments at lines 147-149 of `agg_day_night`,
applied to one row:
`df[hour] = df[time].dt.hour`,
`df[period] = df[hour].apply(lambda h: ...)`,
`df[date] = df[time].dt.date`. -/
def addDerived (r : Row) : Row :=
  { r with
    hour := some (hourOf r.time)
    period := some (periodOfHour (hourOf r.time))
    date := some (dateOf r.time) }

/-- The groupby key columns date and period read from the columns of a row (the
columns are always set by `addDerived` before the groupby runs, so the
`getD` defaults are never reached). -/
def keyOf (r : Row) : Nat × String := (r.date.getD 0, r.period.getD (""))

/-- One row of the aggregate
`df.groupby by date and period, of temp and humidity, mean, reset_index`. -/
structure AggRow where
  date : Nat
  period : String
  temp : ℚ
  humidity : ℚ
deriving Repr, DecidableEq

/-- One output row of the groupby at line 150: the key together with the
mean `temp` and mean `humidity` of the rows of `df2` carrying that key. -/
def groupRow (df2 : List Row) (k : Nat × String) : AggRow :=
  let grp := df2.filter (fun r => keyOf r = k)
  { date := k.1
    period := k.2
    temp := (grp.map Row.temp).sum / (grp.length : ℚ)
    humidity := (grp.map Row.humidity).sum / (grp.length : ℚ) }

/-- Lines 145-151, `agg_day_night(df_weather, variables)`: adds the
derived columns to the frame of the caller in place (modelled by returning the
mutated frame as the first component) and returns the per-`(date, period)`
means of `temp` and `humidity`.  pandas `groupby` emits one row per
distinct key and no rows for absent keys; it lists the keys in sorted
order, while `dedup` keeps first-appearance order — no property below
depends on the order of the aggregate rows, only on which rows occur. -/
def agg_day_night (df_weather : List Row) : List Row × List AggRow :=
  let df2 := df_weather.map addDerived
  let keys := (df2.map keyOf).dedup
  (df2, keys.map (groupRow df2))

/-- Line 463: `daily_avg = temp_data.groupby(date)[temp].mean()` —
the mean, over the *aggregate* rows of one date, of their (already
averaged) `temp` values. -/
def daily_avg (df_weather : List Row) (d : Nat) : PVal :=
  seriesMean ((((agg_day_night df_weather).2).filter
    (fun r => r.date = d)).map AggRow.temp)

/-- Line 498: the mean of temp over the aggregate rows whose period equals Day. -/
def day_temp_avg (df_weather : List Row) : PVal :=
  seriesMean ((((agg_day_night df_weather).2).filter
    (fun r => r.period = "Day")).map AggRow.temp)

/-- Line 507: the mean of temp over the aggregate rows whose period equals Night. -/
def night_temp_avg (df_weather : List Row) : PVal :=
  seriesMean ((((agg_day_night df_weather).2).filter
    (fun r => r.period = "Night")).map AggRow.temp)

/-- Line 516: `temp_diff = day_temp_avg - night_temp_avg`. -/
def temp_diff (df_weather : List Row) : PVal :=
  PVal.sub (day_temp_avg df_weather) (night_temp_avg df_weather)

/-- Lines 157-159 (and identically 205-207): the rolling one-week window
`df_weather[(time <= now + 7 days) & (time >= now)]`. -/
def df_week (now : Nat) (df_weather : List Row) : List Row :=
  df_weather.filter (fun r => r.time ≤ now + 7 * 86400 ∧ now ≤ r.time)

/-- Line 541: `avg_clouds = df_weather[clouds].mean()`. -/
def avg_clouds (df_weather : List Row) : PVal :=
  seriesMean (df_weather.map Row.clouds)

/-- The branch taken by the conditional expression at line 563
(`if avg_clouds > 70 ... elif avg_clouds > 30 ... else ...`), recorded as
the band name.  A Python float comparison against NaN is False, so NaN
falls through to the final branch. -/
def cloud_band : PVal → String
  | PVal.NaN => "low"
  | PVal.num m => if 70 < m then "high" else if 30 < m then "moderate" else "low"

/-- Lines 254-255 of `plot_cloud_heatmap`: the `(day, hour)` pair derived
from the timestamp of a row. -/
def pivotKey (r : Row) : Nat × Nat := (dateOf r.time, hourOf r.time)

/-- Line 258: `df_weather.pivot` with index day, columns hour, values clouds.
pandas `DataFrame.pivot` raises
`ValueError: Index contains duplicate entries, cannot reshape` whenever the
same (index, columns) pair occurs in more than one row; the raised
exception is embedded as `Except.error`.  On success the pivot carries one
`clouds` value per `(day, hour)` pair. -/
def plot_cloud_heatmap (df_weather : List Row) :
    Except String (List ((Nat × Nat) × ℚ)) :=
  if (df_weather.map pivotKey).Nodup then
    Except.ok (df_weather.map (fun r => (pivotKey r, r.clouds)))
  else Except.error ("Index contains duplicate entries, cannot reshape")

/-- One raw entry of the forecast response `data_forecast["list"]`
(lines 429-437).  Each field the loop reads is `Option`-valued: `none`
models the key being absent from the JSON (a lookup then raises KeyError).
The `dt_txt` date-time string is modelled by the instant it denotes, in
seconds. -/
structure RawEntry where
  dt_txt : Option Nat
  main_temp : Option ℚ
  main_humidity : Option ℚ
  weather0_description : Option String
  wind_speed : Option ℚ
  main_feels_like : Option ℚ
  wind_deg : Option ℤ
  clouds_all : Option ℚ
deriving Repr, DecidableEq

/-- A dictionary lookup `forecast[key]`: raises KeyError (modelled as
`Except.error key`) when the key is absent. -/
def getField {α : Type} (o : Option α) (key : String) : Except String α :=
  match o with
  | some v => Except.ok v
  | none => Except.error key

/-- The body of the loop at lines 429-440: reads the eight fields of one
raw entry in source order and builds one normalized row; the first absent
field aborts with its KeyError. -/
def normEntry (f : RawEntry) : Except String Row := do
  let time ← getField f.dt_txt ("dt_txt")
  let temp ← getField f.main_temp ("temp")
  let humidity ← getField f.main_humidity ("humidity")
  let description ← getField f.weather0_description ("description")
  let wind_speed ← getField f.wind_speed ("speed")
  let feels_like ← getField f.main_feels_like ("feels_like")
  let wind_direction ← getField f.wind_deg ("deg")
  let clouds ← getField f.clouds_all ("all")
  Except.ok { time, temp, description, humidity, wind_speed, feels_like,
              wind_direction, clouds }

/-- Lines 428-444: the module-level loop over `data_forecast["list"]`.
A KeyError raised at any entry propagates to the `except` handler at line
577: the loop stops, the DataFrame is never built and nothing is passed to
aggregation or charting — hence `Except.error` carries no rows at all.
When every entry is well formed the result is one row per entry, in source
order. -/
def normalizeForecast : List RawEntry → Except String (List Row)
  | [] => Except.ok []
  | f :: rest =>
    match normEntry f with
    | Except.error msg => Except.error msg
    | Except.ok r =>
      match normalizeForecast rest with
      | Except.error msg => Except.error msg
      | Except.ok rs => Except.ok (r :: rs)

/-- An entry with every required field present. -/
def complete (f : RawEntry) : Prop :=
  f.dt_txt.isSome ∧ f.main_temp.isSome ∧ f.main_humidity.isSome ∧
  f.weather0_description.isSome ∧ f.wind_speed.isSome ∧
  f.main_feels_like.isSome ∧ f.wind_deg.isSome ∧ f.clouds_all.isSome

/-- The row `normEntry` produces on a complete entry (under completeness
none of the `getD` defaults is reachable); used only to state order
preservation of the normalizer. -/
def fillEntry (f : RawEntry) : Row :=
  { time := f.dt_txt.getD 0
    temp := f.main_temp.getD 0
    description := f.weather0_description.getD ("")
    humidity := f.main_humidity.getD 0
    wind_speed := f.wind_speed.getD 0
    feels_like := f.main_feels_like.getD 0
    wind_direction := f.wind_deg.getD 0
    clouds := f.clouds_all.getD 0 }

/-- A concrete forecast row: timestamp (seconds), temperature, cloud
coverage; the remaining columns take fixed throwaway values. -/
def mkSample (t : Nat) (temp clouds : ℚ) : Row :=
  { time := t, temp := temp, description := "", humidity := 50,
    wind_speed := 1, wind_direction := 90, feels_like := temp, clouds := clouds }

/-! Helper lemmas about the embedded pipeline. -/

theorem agg_fst (df : List Row) : (agg_day_night df).1 = df.map addDerived := rfl

theorem agg_snd (df : List Row) :
    (agg_day_night df).2
      = (((df.map addDerived).map keyOf).dedup).map
          (groupRow (df.map addDerived)) := rfl

theorem groupRow_key (df2 : List Row) (k : Nat × String) :
    ((groupRow df2 k).date, (groupRow df2 k).period) = k := rfl

theorem keyOf_addDerived (r : Row) :
    keyOf (addDerived r) = (dateOf r.time, periodOfHour (hourOf r.time)) := rfl

theorem mem_agg_iff (df : List Row) (a : AggRow) :
    a ∈ (agg_day_night df).2 ↔
      ∃ k, (∃ r ∈ df.map addDerived, keyOf r = k)
        ∧ a = groupRow (df.map addDerived) k := by
  rw [agg_snd]
  constructor
  · intro ha
    rcases List.mem_map.mp ha with ⟨k, hk, hgk⟩
    exact ⟨k, List.mem_map.mp (List.mem_dedup.mp hk), hgk.symm⟩
  · rintro ⟨k, hk, rfl⟩
    exact List.mem_map_of_mem _ (List.mem_dedup.mpr (List.mem_map.mpr hk))

theorem periodOfHour_eq_day_iff (h : Nat) :
    periodOfHour h = "Day" ↔ 6 ≤ h ∧ h < 18 := by
  unfold periodOfHour
  split <;> simp_all

theorem periodOfHour_cases (h : Nat) :
    periodOfHour h = "Day" ∨ periodOfHour h = "Night" := by
  unfold periodOfHour
  split <;> simp

theorem map_eq_self_of_mem {α : Type} {f : α → α} :
    ∀ (l : List α), l.map f = l → ∀ x ∈ l, f x = x := by
  intro l
  induction l with
  | nil => intro _ x hx; cases hx
  | cons a t ih =>
    intro hmap x hx
    rw [List.map_cons, List.cons.injEq] at hmap
    rcases List.mem_cons.mp hx with rfl | hx
    · exact hmap.1
    · exact ih hmap.2 x hx

/-! Concrete inputs used by the claim checks. -/

/-- One date, 5 Day samples at 10 °C and 1 Night sample at 22 °C: the mean
of all six samples is 12, the mean of the two period-means is 16. -/
def dfC1 : List Row :=
  [mkSample (6 * 3600) 10 0, mkSample (9 * 3600) 10 0,
   mkSample (12 * 3600) 10 0, mkSample (15 * 3600) 10 0,
   mkSample (17 * 3600) 10 0, mkSample 0 22 0]

/-- A frame whose only sample falls in the Day period. -/
def dfDayOnly : List Row := [mkSample (12 * 3600) 20 0]

/-- Day mean 20 °C, Night mean 12 °C. -/
def df78 : List Row := [mkSample (12 * 3600) 20 0, mkSample 0 12 0]

/-- Day mean 5 °C, Night mean 10 °C: a negative Day-minus-Night difference. -/
def dfNeg : List Row := [mkSample (12 * 3600) 5 0, mkSample 0 10 0]

/-- Two distinct timestamps sharing the same `(day, hour)` pivot key. -/
def dfDup : List Row := [mkSample 0 3 10, mkSample 60 4 80]

/-- Evaluation of the Day roll-up on `df78`. -/
theorem day_temp_avg_df78 : day_temp_avg df78 = PVal.num 20 := by
  simp [day_temp_avg, agg_day_night, groupRow, df78, mkSample, addDerived,
    keyOf, hourOf, dateOf, periodOfHour, seriesMean]

/-- Evaluation of the Night roll-up on `df78`. -/
theorem night_temp_avg_df78 : night_temp_avg df78 = PVal.num 12 := by
  simp [night_temp_avg, agg_day_night, groupRow, df78, mkSample, addDerived,
    keyOf, hourOf, dateOf, periodOfHour, seriesMean]

/-! The claims. -/

/-- C3 (confirmed): the day/night classification is a pure function of the
local hour-of-day: `Day` iff `6 ≤ h < 18`, otherwise `Night`; hours 6 and
17 classify as Day, hours 5 and 18 as Night, and the `period` column
written by `agg_day_night` is exactly this function of the hour of the row. -/
theorem C3_period_pure_function_of_hour : ∀ h : Nat,
    (periodOfHour h = "Day" ↔ 6 ≤ h ∧ h < 18) ∧
    (periodOfHour h = "Night" ↔ ¬(6 ≤ h ∧ h < 18)) ∧
    (∀ r : Row, (addDerived r).period = some (periodOfHour (hourOf r.time))) ∧
    periodOfHour 6 = "Day" ∧ periodOfHour 17 = "Day" ∧
    periodOfHour 5 = "Night" ∧ periodOfHour 18 = "Night" := by
  intro h
  refine ⟨periodOfHour_eq_day_iff h, ?_, fun r => rfl,
    by decide, by decide, by decide, by decide⟩
  unfold periodOfHour
  split <;> simp_all

/-- C10 (confirmed): `agg_day_night` mutates its argument in place —
modelled as the returned frame — by setting the derived columns `hour`,
`period`, `date` on every row, while every pre-existing column keeps its
value, the rows keep their order and count, and the frame genuinely
changes whenever some row lacked an `hour` column. -/
theorem C10_agg_mutates_frame_in_place (df : List Row) :
    (agg_day_night df).1 = df.map addDerived ∧
    ((agg_day_night df).1).length = df.length ∧
    (∀ r : Row,
      (addDerived r).time = r.time ∧ (addDerived r).temp = r.temp ∧
      (addDerived r).description = r.description ∧
      (addDerived r).humidity = r.humidity ∧
      (addDerived r).wind_speed = r.wind_speed ∧
      (addDerived r).feels_like = r.feels_like ∧
      (addDerived r).wind_direction = r.wind_direction ∧
      (addDerived r).clouds = r.clouds ∧
      (addDerived r).hour = some (hourOf r.time) ∧
      (addDerived r).period = some (periodOfHour (hourOf r.time)) ∧
      (addDerived r).date = some (dateOf r.time)) ∧
    ((∃ r ∈ df, r.hour = none) → (agg_day_night df).1 ≠ df) := by
  refine ⟨rfl, by rw [agg_fst, List.length_map],
    fun r => ⟨rfl, rfl, rfl, rfl, rfl, rfl, rfl, rfl, rfl, rfl, rfl⟩, ?_⟩
  rintro ⟨r, hr, hnone⟩ heq
  rw [agg_fst] at heq
  have hfix := map_eq_self_of_mem df heq r hr
  have hh : (addDerived r).hour = r.hour := by rw [hfix]
  rw [hnone] at hh
  simp [addDerived] at hh

/-- Witness for C10 at a one-row frame without derived columns. -/
theorem C10_agg_mutates_frame_in_place_witness :
    (agg_day_night [mkSample 0 3 10]).1 ≠ [mkSample 0 3 10] :=
  (C10_agg_mutates_frame_in_place [mkSample 0 3 10]).2.2.2
    ⟨mkSample 0 3 10, by simp, rfl⟩

/-- C7 (confirmed): whenever both the Day and Night averages are numeric,
the reported difference is the raw signed Day-minus-Night value: on `df78`
(Day mean 20 °C, Night mean 12 °C) it is +8 °C, and on `dfNeg` it is
-5 °C, not the absolute value 5 °C. -/
theorem C7_temp_diff_raw_signed (df : List Row) (d n : ℚ)
    (hd : day_temp_avg df = PVal.num d)
    (hn : night_temp_avg df = PVal.num n) :
    temp_diff df = PVal.num (d - n) ∧
    day_temp_avg df78 = PVal.num 20 ∧
    night_temp_avg df78 = PVal.num 12 ∧
    temp_diff df78 = PVal.num 8 ∧
    temp_diff dfNeg = PVal.num (-5) ∧
    temp_diff dfNeg ≠ PVal.num 5 := by
  refine ⟨by rw [temp_diff, hd, hn]; rfl,
    day_temp_avg_df78, night_temp_avg_df78, ?_, ?_, ?_⟩
  · rw [temp_diff, day_temp_avg_df78, night_temp_avg_df78]
    norm_num [PVal.sub]
  · rw [temp_diff]
    simp [day_temp_avg, night_temp_avg, agg_day_night, groupRow, dfNeg,
      mkSample, addDerived, keyOf, hourOf, dateOf, periodOfHour, seriesMean,
      PVal.sub]
    norm_num
  · rw [temp_diff]
    simp [day_temp_avg, night_temp_avg, agg_day_night, groupRow, dfNeg,
      mkSample, addDerived, keyOf, hourOf, dateOf, periodOfHour, seriesMean,
      PVal.sub]

/-- Witness for C7 on `df78`. -/
theorem C7_temp_diff_raw_signed_witness : temp_diff df78 = PVal.num (20 - 12) :=
  (C7_temp_diff_raw_signed df78 20 12 day_temp_avg_df78 night_temp_avg_df78).1

/-- A complete entry normalizes to its row of field values. -/
theorem normEntry_complete (f : RawEntry) (h : complete f) :
    normEntry f = Except.ok (fillEntry f) := by
  obtain ⟨v1, h1⟩ := Option.isSome_iff_exists.mp h.1
  obtain ⟨v2, h2⟩ := Option.isSome_iff_exists.mp h.2.1
  obtain ⟨v3, h3⟩ := Option.isSome_iff_exists.mp h.2.2.1
  obtain ⟨v4, h4⟩ := Option.isSome_iff_exists.mp h.2.2.2.1
  obtain ⟨v5, h5⟩ := Option.isSome_iff_exists.mp h.2.2.2.2.1
  obtain ⟨v6, h6⟩ := Option.isSome_iff_exists.mp h.2.2.2.2.2.1
  obtain ⟨v7, h7⟩ := Option.isSome_iff_exists.mp h.2.2.2.2.2.2.1
  obtain ⟨v8, h8⟩ := Option.isSome_iff_exists.mp h.2.2.2.2.2.2.2
  simp [normEntry, getField, fillEntry, Except.instMonad, Except.bind,
    h1, h2, h3, h4, h5, h6, h7, h8]

/-- An entry with a missing required field normalizes to a KeyError. -/
theorem normEntry_incomplete (f : RawEntry) (h : ¬ complete f) :
    ∃ msg, normEntry f = Except.error msg := by
  rcases h1 : f.dt_txt with _ | v1
  · exact ⟨"dt_txt", by simp [normEntry, getField, Except.instMonad, Except.bind, h1]⟩
  rcases h2 : f.main_temp with _ | v2
  · exact ⟨"temp", by simp [normEntry, getField, Except.instMonad, Except.bind, h1, h2]⟩
  rcases h3 : f.main_humidity with _ | v3
  · exact ⟨"humidity", by simp [normEntry, getField, Except.instMonad, Except.bind, h1, h2, h3]⟩
  rcases h4 : f.weather0_description with _ | v4
  · exact ⟨"description", by simp [normEntry, getField, Except.instMonad, Except.bind, h1, h2, h3, h4]⟩
  rcases h5 : f.wind_speed with _ | v5
  · exact ⟨"speed", by simp [normEntry, getField, Except.instMonad, Except.bind, h1, h2, h3, h4, h5]⟩
  rcases h6 : f.main_feels_like with _ | v6
  · exact ⟨"feels_like", by simp [normEntry, getField, Except.instMonad, Except.bind, h1, h2, h3, h4, h5, h6]⟩
  rcases h7 : f.wind_deg with _ | v7
  · exact ⟨"deg", by simp [normEntry, getField, Except.instMonad, Except.bind, h1, h2, h3, h4, h5, h6, h7]⟩
  rcases h8 : f.clouds_all with _ | v8
  · exact ⟨"all", by simp [normEntry, getField, Except.instMonad, Except.bind, h1, h2, h3, h4, h5, h6, h7, h8]⟩
  exact absurd ⟨by simp [h1], by simp [h2], by simp [h3], by simp [h4],
    by simp [h5], by simp [h6], by simp [h7], by simp [h8]⟩ h

/-- On fully well-formed input the normalizer emits one row per entry, in
source order. -/
theorem normalizeForecast_ok (raw : List RawEntry)
    (h : ∀ f ∈ raw, complete f) :
    normalizeForecast raw = Except.ok (raw.map fillEntry) := by
  induction raw with
  | nil => rfl
  | cons f rest ih =>
    have hf := normEntry_complete f (h f (List.mem_cons_self f rest))
    have hrest := ih (fun g hg => h g (List.mem_cons_of_mem f hg))
    simp [normalizeForecast, hf, hrest]

/-- Any malformed entry makes the whole normalization fail. -/
theorem normalizeForecast_error (raw : List RawEntry)
    (h : ∃ f ∈ raw, ¬ complete f) :
    ∃ msg, normalizeForecast raw = Except.error msg := by
  induction raw with
  | nil => simp at h
  | cons f rest ih =>
    by_cases hf : complete f
    · rcases h with ⟨g, hg, hnc⟩
      rcases List.mem_cons.mp hg with rfl | hg
      · exact absurd hf hnc
      · rcases ih ⟨g, hg, hnc⟩ with ⟨msg, hmsg⟩
        exact ⟨msg, by simp [normalizeForecast, normEntry_complete f hf, hmsg]⟩
    · rcases normEntry_incomplete f hf with ⟨msg, hmsg⟩
      exact ⟨msg, by simp [normalizeForecast, hmsg]⟩

/-- An entry whose `dt_txt` key is missing. -/
def badEntry : RawEntry :=
  { dt_txt := none, main_temp := some 1, main_humidity := some 2,
    weather0_description := some ("x"), wind_speed := some 3,
    main_feels_like := some 4, wind_deg := some 5, clouds_all := some 6 }

/-- C9 (confirmed): if any raw forecast entry lacks a required field, the
whole normalization fails with the raised KeyError and yields no rows at
all (the `Except.error` branch carries no partial sample list, matching
the module-level `except` handler that aborts before the DataFrame is
built); on fully well-formed input it yields exactly one normalized row
per raw entry, in source order. -/
theorem C9_normalizer_fails_whole_fetch (raw : List RawEntry) :
    ((∃ f ∈ raw, ¬ complete f) →
      ∃ msg, normalizeForecast raw = Except.error msg) ∧
    ((∀ f ∈ raw, complete f) →
      normalizeForecast raw = Except.ok (raw.map fillEntry)) :=
  ⟨normalizeForecast_error raw, normalizeForecast_ok raw⟩

/-- Witness for C9: a single entry missing `dt_txt` fails the fetch. -/
theorem C9_normalizer_fails_whole_fetch_witness :
    ∃ msg, normalizeForecast [badEntry] = Except.error msg :=
  (C9_normalizer_fails_whole_fetch [badEntry]).1
    ⟨badEntry, by simp, by simp [complete, badEntry]⟩

/-- Over a frame whose rows all lie at or after `now`, the week filter is
a `takeWhile`: as soon as a row passes the upper bound, sortedness puts
every later row past it as well. -/
theorem df_week_all_ge (now : Nat) :
    ∀ df : List Row, df.Pairwise (fun a b => a.time ≤ b.time) →
      (∀ r ∈ df, now ≤ r.time) →
      df_week now df = df.takeWhile (fun r => r.time ≤ now + 7 * 86400) := by
  intro df
  induction df with
  | nil => intro _ _; rfl
  | cons a t ih =>
    intro hp hge
    rw [List.pairwise_cons] at hp
    have hnow : now ≤ a.time := hge a (List.mem_cons_self a t)
    by_cases hb : a.time ≤ now + 7 * 86400
    · rw [df_week, List.filter_cons, List.takeWhile_cons]
      rw [if_pos (show (decide (a.time ≤ now + 7 * 86400 ∧ now ≤ a.time)) = true
            by simp [hb, hnow])]
      rw [if_pos (show (decide (a.time ≤ now + 7 * 86400)) = true by simp [hb])]
      rw [← df_week, ih hp.2 (fun r hr => hge r (List.mem_cons_of_mem a hr))]
    · rw [df_week, List.filter_cons, List.takeWhile_cons]
      rw [if_neg (show ¬ (decide (a.time ≤ now + 7 * 86400 ∧ now ≤ a.time)) = true
            by simp [hb])]
      rw [if_neg (show ¬ (decide (a.time ≤ now + 7 * 86400)) = true by simp [hb])]
      rw [List.filter_eq_nil_iff]
      intro r hr
      have har : a.time ≤ r.time := hp.1 r hr
      simp only [decide_eq_true_eq, not_and]
      omega

/-- On a time-ordered frame the week filter drops the rows before `now`
and then takes the rows up to `now + 7 days`. -/
theorem df_week_eq_drop_take (now : Nat) :
    ∀ df : List Row, df.Pairwise (fun a b => a.time ≤ b.time) →
      df_week now df
        = (df.dropWhile (fun r => r.time < now)).takeWhile
            (fun r => r.time ≤ now + 7 * 86400) := by
  intro df
  induction df with
  | nil => intro _; rfl
  | cons a t ih =>
    intro hp
    rw [List.pairwise_cons] at hp
    by_cases hlt : a.time < now
    · rw [df_week, List.filter_cons, List.dropWhile_cons]
      rw [if_neg (show ¬ (decide (a.time ≤ now + 7 * 86400 ∧ now ≤ a.time)) = true
            by simp only [decide_eq_true_eq, not_and]; omega)]
      rw [if_pos (show (decide (a.time < now)) = true by simp [hlt])]
      rw [← df_week, ih hp.2]
    · rw [List.dropWhile_cons,
        if_neg (show ¬ (decide (a.time < now)) = true by simp [hlt])]
      apply df_week_all_ge now (a :: t) (List.pairwise_cons.mpr hp)
      intro r hr
      rcases List.mem_cons.mp hr with rfl | hr
      · omega
      · have := hp.1 r hr
        omega

/-- Row membership in the week window. -/
theorem mem_df_week (now : Nat) (df : List Row) (r : Row) :
    r ∈ df_week now df ↔
      r ∈ df ∧ now ≤ r.time ∧ r.time ≤ now + 7 * 86400 := by
  simp only [df_week, List.mem_filter, decide_eq_true_eq]
  tauto

/-- Two rows at exactly seven days after instant 0 and one second later. -/
def dfBoundary : List Row := [mkSample (7 * 86400) 1 0, mkSample (7 * 86400 + 1) 2 0]

/-- C5 (confirmed): on a time-ordered frame the week filter returns exactly
the contiguous run of rows whose timestamp `t` satisfies
`now ≤ t ≤ now + 7 days`, both boundaries inclusive: a row exactly 7 days
after `now` is kept and a row one second later is dropped. -/
theorem C5_week_window_inclusive (now : Nat) (df : List Row)
    (hsorted : df.Pairwise (fun a b => a.time ≤ b.time)) :
    (∀ r, r ∈ df_week now df ↔
        r ∈ df ∧ now ≤ r.time ∧ r.time ≤ now + 7 * 86400) ∧
    (∃ pre post, pre ++ df_week now df ++ post = df) ∧
    (∀ r ∈ df, r.time = now + 7 * 86400 → r ∈ df_week now df) ∧
    (∀ r ∈ df, r.time = now + 7 * 86400 + 1 → r ∉ df_week now df) := by
  refine ⟨mem_df_week now df, ?_, ?_, ?_⟩
  · refine ⟨df.takeWhile (fun r => r.time < now),
      (df.dropWhile (fun r => r.time < now)).dropWhile
        (fun r => r.time ≤ now + 7 * 86400), ?_⟩
    rw [df_week_eq_drop_take now df hsorted, List.append_assoc,
      List.takeWhile_append_dropWhile, List.takeWhile_append_dropWhile]
  · intro r hr ht
    exact (mem_df_week now df r).mpr ⟨hr, by omega, by omega⟩
  · intro r hr ht hmem
    have := ((mem_df_week now df r).mp hmem).2.2
    omega

/-- Witness for C5 at `now = 0` on `dfBoundary`. -/
theorem C5_week_window_inclusive_witness :
    mkSample (7 * 86400) 1 0 ∈ df_week 0 dfBoundary ∧
    mkSample (7 * 86400 + 1) 2 0 ∉ df_week 0 dfBoundary := by
  have h := C5_week_window_inclusive 0 dfBoundary
    (by simp [dfBoundary, mkSample])
  exact ⟨h.2.2.1 _ (by simp [dfBoundary]) (by simp [mkSample]),
    h.2.2.2 _ (by simp [dfBoundary]) (by simp [mkSample])⟩

/-- The three bands of the conditional at line 563, characterized by the
mean value. -/
theorem cloud_band_num (m : ℚ) :
    (cloud_band (PVal.num m) = "high" ↔ 70 < m) ∧
    (cloud_band (PVal.num m) = "moderate" ↔ 30 < m ∧ m ≤ 70) ∧
    (cloud_band (PVal.num m) = "low" ↔ m ≤ 30) := by
  simp only [cloud_band]
  by_cases h70 : 70 < m
  · rw [if_pos h70]
    exact ⟨iff_of_true rfl h70,
      iff_of_false (by decide) (by intro h; linarith [h.2]),
      iff_of_false (by decide) (by intro h; linarith)⟩
  · rw [if_neg h70]
    by_cases h30 : 30 < m
    · rw [if_pos h30]
      exact ⟨iff_of_false (by decide) (fun h => h70 h),
        iff_of_true rfl ⟨h30, not_lt.mp h70⟩,
        iff_of_false (by decide) (by intro h; linarith)⟩
    · rw [if_neg h30]
      exact ⟨iff_of_false (by decide) (fun h => h70 h),
        iff_of_false (by decide) (fun h => h30 h.1),
        iff_of_true rfl (not_lt.mp h30)⟩

/-- C6 (confirmed): on a non-empty frame the cloud summarizer computes the
unweighted mean of `clouds` and classifies it "high" iff the mean exceeds
70, "moderate" iff it exceeds 30 but not 70, and "low" iff it is at most
30; in particular mean 71 is high, means 70 and 31 are moderate, and mean
30 is low. -/
theorem C6_cloud_mean_banding (df : List Row) (hne : df ≠ []) :
    (∃ m : ℚ, avg_clouds df = PVal.num m ∧
      m * (df.length : ℚ) = (df.map Row.clouds).sum ∧
      (cloud_band (avg_clouds df) = "high" ↔ 70 < m) ∧
      (cloud_band (avg_clouds df) = "moderate" ↔ 30 < m ∧ m ≤ 70) ∧
      (cloud_band (avg_clouds df) = "low" ↔ m ≤ 30)) ∧
    cloud_band (avg_clouds [mkSample 0 0 71]) = "high" ∧
    cloud_band (avg_clouds [mkSample 0 0 70]) = "moderate" ∧
    cloud_band (avg_clouds [mkSample 0 0 31]) = "moderate" ∧
    cloud_band (avg_clouds [mkSample 0 0 30]) = "low" := by
  refine ⟨?_, ?_, ?_, ?_, ?_⟩
  · have hovl : avg_clouds df
        = PVal.num ((df.map Row.clouds).sum / (df.length : ℚ)) := by
      rcases df with _ | ⟨a, t⟩
      · exact absurd rfl hne
      · simp [avg_clouds, seriesMean]
    have hlen : (df.length : ℚ) ≠ 0 :=
      Nat.cast_ne_zero.mpr (fun h => hne (List.length_eq_zero.mp h))
    refine ⟨(df.map Row.clouds).sum / (df.length : ℚ), hovl, ?_, ?_, ?_, ?_⟩
    · field_simp
    · rw [hovl]; exact (cloud_band_num _).1
    · rw [hovl]; exact (cloud_band_num _).2.1
    · rw [hovl]; exact (cloud_band_num _).2.2
  · norm_num [avg_clouds, seriesMean, mkSample, cloud_band]
  · norm_num [avg_clouds, seriesMean, mkSample, cloud_band]
  · norm_num [avg_clouds, seriesMean, mkSample, cloud_band]
  · norm_num [avg_clouds, seriesMean, mkSample, cloud_band]

/-- Witness for C6 on a one-row frame with coverage 71. -/
theorem C6_cloud_mean_banding_witness :
    cloud_band (avg_clouds [mkSample 0 0 71]) = "high" :=
  (C6_cloud_mean_banding [mkSample 0 0 71] (by simp)).2.1

/-- A group row keeps the date component of its key. -/
theorem groupRow_date (df2 : List Row) (k : Nat × String) :
    (groupRow df2 k).date = k.1 := rfl

/-- A group row keeps the period component of its key. -/
theorem groupRow_period (df2 : List Row) (k : Nat × String) :
    (groupRow df2 k).period = k.2 := rfl

/-- Subtracting NaN yields NaN whatever the left operand is. -/
theorem PVal.sub_nan (x : PVal) : PVal.sub x PVal.NaN = PVal.NaN := by
  cases x <;> rfl

/-- C2 counterexample: on a frame whose single sample is in the Day
period, the Night average is the NaN produced by pandas `mean()` on an
empty selection, and the Day-minus-Night difference is NaN as well — a
numeric artifact, not a distinct "no data" outcome. -/
theorem C2_night_avg_nan_counterexample :
    night_temp_avg dfDayOnly = PVal.NaN ∧
    day_temp_avg dfDayOnly = PVal.num 20 ∧
    temp_diff dfDayOnly = PVal.NaN := by
  refine ⟨?_, ?_, ?_⟩ <;>
    simp [night_temp_avg, day_temp_avg, temp_diff, dfDayOnly, agg_day_night,
      groupRow, mkSample, addDerived, keyOf, hourOf, dateOf, periodOfHour,
      seriesMean, PVal.sub]

/-- Subtracting from NaN yields NaN whatever the right operand is. -/
theorem PVal.nan_sub (x : PVal) : PVal.sub PVal.NaN x = PVal.NaN := by
  cases x <;> rfl

/-- When no row of the frame classifies into period `P`, the aggregate has
no `P` rows at all. -/
theorem agg_filter_period_empty (df : List Row) (P : String)
    (h : ∀ r ∈ df, periodOfHour (hourOf r.time) ≠ P) :
    ((agg_day_night df).2).filter (fun a => a.period = P) = [] := by
  rw [List.filter_eq_nil_iff]
  intro a ha
  rcases (mem_agg_iff df a).mp ha with ⟨k, ⟨r, hr, hk⟩, rfl⟩
  obtain ⟨r0, hr0, rfl⟩ := List.mem_map.mp hr
  rw [keyOf_addDerived] at hk
  subst hk
  rw [groupRow_period]
  simp [h r0 hr0]

/-- C2 (corrected): whichever period (Day or Night) has zero buckets in
the data, the roll-up average of that period is the float NaN that pandas
`mean()` returns on an empty selection, and the NaN propagates silently
into `temp_diff`; the code never reports a distinct "no data" state. -/
theorem C2_empty_period_avg_is_nan (df : List Row) :
    ((∀ r ∈ df, 6 ≤ hourOf r.time ∧ hourOf r.time < 18) →
      night_temp_avg df = PVal.NaN ∧ temp_diff df = PVal.NaN) ∧
    ((∀ r ∈ df, ¬ (6 ≤ hourOf r.time ∧ hourOf r.time < 18)) →
      day_temp_avg df = PVal.NaN ∧ temp_diff df = PVal.NaN) := by
  constructor
  · intro h
    have hfil := agg_filter_period_empty df "Night" (fun r hr => by
      rw [(periodOfHour_eq_day_iff _).mpr (h r hr)]
      decide)
    have hnight : night_temp_avg df = PVal.NaN := by
      simp only [night_temp_avg, hfil, List.map_nil]
      rfl
    exact ⟨hnight, by rw [temp_diff, hnight, PVal.sub_nan]⟩
  · intro h
    have hfil := agg_filter_period_empty df "Day" (fun r hr => by
      have hN : periodOfHour (hourOf r.time) = "Night" := by
        unfold periodOfHour
        rw [if_neg (h r hr)]
      rw [hN]
      decide)
    have hday : day_temp_avg df = PVal.NaN := by
      simp only [day_temp_avg, hfil, List.map_nil]
      rfl
    exact ⟨hday, by rw [temp_diff, hday, PVal.nan_sub]⟩

/-- Witness for C2: a Day-only frame at hour 7 (Night bucket empty) and a
Night-only frame at hour 0 (Day bucket empty). -/
theorem C2_empty_period_avg_is_nan_witness :
    (night_temp_avg [mkSample (7 * 3600) 15 0] = PVal.NaN ∧
      temp_diff [mkSample (7 * 3600) 15 0] = PVal.NaN) ∧
    (day_temp_avg [mkSample 0 9 0] = PVal.NaN ∧
      temp_diff [mkSample 0 9 0] = PVal.NaN) :=
  ⟨(C2_empty_period_avg_is_nan [mkSample (7 * 3600) 15 0]).1 (by decide),
    (C2_empty_period_avg_is_nan [mkSample 0 9 0]).2 (by decide)⟩

/-- C8 counterexample: two rows that share the `(day, hour)` pivot key
make `plot_cloud_heatmap` raise the pandas duplicate-index ValueError
instead of producing a resolved value per pair. -/
theorem C8_pivot_duplicate_counterexample :
    plot_cloud_heatmap dfDup
      = Except.error ("Index contains duplicate entries, cannot reshape") := by
  rw [plot_cloud_heatmap,
    if_neg (show ¬ (dfDup.map pivotKey).Nodup by decide)]

/-- C8 (corrected): the pivot produces exactly one value per `(date, hour)`
pair only when all pairs in the frame are distinct; when a pair repeats,
the pivot deterministically fails with the duplicate-index error (the
exception reaches the module-level handler), rather than resolving the
duplicates. -/
theorem C8_pivot_requires_distinct_keys (df : List Row) :
    ((df.map pivotKey).Nodup →
      ∃ ps, plot_cloud_heatmap df = Except.ok ps ∧
        ps.map Prod.fst = df.map pivotKey ∧
        (ps.map Prod.fst).Nodup ∧
        ∀ r ∈ df, (pivotKey r, r.clouds) ∈ ps) ∧
    (¬ (df.map pivotKey).Nodup →
      plot_cloud_heatmap df
        = Except.error ("Index contains duplicate entries, cannot reshape")) := by
  constructor
  · intro hnd
    refine ⟨df.map (fun r => (pivotKey r, r.clouds)), ?_, ?_, ?_, ?_⟩
    · rw [plot_cloud_heatmap, if_pos hnd]
    · rw [List.map_map]; rfl
    · rw [List.map_map]; exact hnd
    · intro r hr
      exact List.mem_map_of_mem _ hr
  · intro hnd
    rw [plot_cloud_heatmap, if_neg hnd]

/-- Witness for C8: on `df78` (distinct pivot keys) the pivot succeeds
with one value per pair. -/
theorem C8_pivot_requires_distinct_keys_witness :
    ∃ ps, plot_cloud_heatmap df78 = Except.ok ps ∧
      ps.map Prod.fst = df78.map pivotKey ∧
      (ps.map Prod.fst).Nodup ∧
      ∀ r ∈ df78, (pivotKey r, r.clouds) ∈ ps :=
  (C8_pivot_requires_distinct_keys df78).1 (by decide)

/-- C4 (confirmed): for a non-empty frame, the bucket keys of the aggregate are
exactly the distinct `(date, period)` pairs present among the (mutated)
rows, no key repeats, every row belongs to exactly one bucket, every
bucket is non-empty, and the `temp` and `humidity` of each bucket are the
unweighted means over exactly the rows of that bucket. -/
theorem C4_agg_bucket_invariants (df : List Row) (hne : df ≠ []) :
    (∀ k : Nat × String,
      (∃ a ∈ (agg_day_night df).2, (a.date, a.period) = k)
        ↔ ∃ r ∈ (agg_day_night df).1, keyOf r = k) ∧
    (((agg_day_night df).2.map (fun a => (a.date, a.period))).Nodup) ∧
    (∀ r ∈ (agg_day_night df).1,
      ∃! a, a ∈ (agg_day_night df).2 ∧ (a.date, a.period) = keyOf r) ∧
    (∀ a ∈ (agg_day_night df).2,
      (agg_day_night df).1.filter (fun r => keyOf r = (a.date, a.period)) ≠ [] ∧
      a.temp * (((agg_day_night df).1.filter
          (fun r => keyOf r = (a.date, a.period))).length : ℚ)
        = (((agg_day_night df).1.filter
            (fun r => keyOf r = (a.date, a.period))).map Row.temp).sum ∧
      a.humidity * (((agg_day_night df).1.filter
          (fun r => keyOf r = (a.date, a.period))).length : ℚ)
        = (((agg_day_night df).1.filter
            (fun r => keyOf r = (a.date, a.period))).map Row.humidity).sum) := by
  refine ⟨?_, ?_, ?_, ?_⟩
  · intro k
    constructor
    · rintro ⟨a, ha, hk⟩
      rcases (mem_agg_iff df a).mp ha with ⟨k', hk', rfl⟩
      rw [groupRow_key] at hk
      subst hk
      exact hk'
    · rintro ⟨r, hr, hk⟩
      exact ⟨groupRow (df.map addDerived) k,
        (mem_agg_iff df _).mpr ⟨k, ⟨r, hr, hk⟩, rfl⟩, groupRow_key _ k⟩
  · have hcomp : ((fun a : AggRow => (a.date, a.period))
        ∘ groupRow (df.map addDerived)) = id :=
      funext (fun k => groupRow_key (df.map addDerived) k)
    rw [agg_snd, List.map_map, hcomp, List.map_id]
    exact List.nodup_dedup _
  · intro r hr
    refine ⟨groupRow (df.map addDerived) (keyOf r),
      ⟨(mem_agg_iff df _).mpr ⟨keyOf r, ⟨r, hr, rfl⟩, rfl⟩,
        groupRow_key _ (keyOf r)⟩, ?_⟩
    rintro a ⟨ha, hk⟩
    rcases (mem_agg_iff df a).mp ha with ⟨k', hk', rfl⟩
    rw [groupRow_key] at hk
    subst hk
    rfl
  · intro a ha
    rcases (mem_agg_iff df a).mp ha with ⟨k, ⟨r, hr, hk⟩, rfl⟩
    rw [groupRow_key]
    have hrmem : r ∈ (df.map addDerived).filter (fun x => keyOf x = k) :=
      List.mem_filter.mpr ⟨hr, by simp [hk]⟩
    have hne2 : (df.map addDerived).filter (fun x => keyOf x = k) ≠ [] :=
      fun hnil => by rw [hnil] at hrmem; cases hrmem
    have hlen : ((((df.map addDerived).filter
        (fun x => keyOf x = k)).length : ℚ)) ≠ 0 := by
      have : ((df.map addDerived).filter (fun x => keyOf x = k)).length ≠ 0 :=
        fun h0 => hne2 (List.length_eq_zero.mp h0)
      exact_mod_cast Nat.cast_ne_zero.mpr this
    rw [agg_fst]
    exact ⟨hne2, div_mul_cancel₀ _ hlen, div_mul_cancel₀ _ hlen⟩

/-- Witness for C4: the key `(0, "Day")` occurs in the aggregate of `df78`
because a row with that key occurs in the frame. -/
theorem C4_agg_bucket_invariants_witness :
    ∃ a ∈ (agg_day_night df78).2, (a.date, a.period) = ((0 : Nat), "Day") :=
  ((C4_agg_bucket_invariants df78 (by simp [df78])).1 ((0 : Nat), "Day")).mpr
    ⟨addDerived (mkSample (12 * 3600) 20 0),
      List.mem_map_of_mem addDerived (by simp [df78]), by decide⟩

/-- Filtering a mapped list is mapping the filtered preimage. -/
theorem filter_map_comm {α β : Type} (f : α → β) (p : β → Bool) :
    ∀ l : List α, (l.map f).filter p = (l.filter (fun x => p (f x))).map f := by
  intro l
  induction l with
  | nil => rfl
  | cons a t ih =>
    rw [List.map_cons, List.filter_cons, List.filter_cons]
    by_cases h : p (f a) = true
    · rw [if_pos h, if_pos h, List.map_cons, ih]
    · rw [if_neg h, if_neg h, ih]

/-- C1 counterexample: on `dfC1` (five Day samples at 10 °C and one Night
sample at 22 °C, all on date 0) the Daily-average roll-up reports 16 — the
mean of the two period-means — while the unweighted mean of all six
samples of that date is 12. -/
theorem C1_daily_avg_counterexample :
    daily_avg dfC1 0 = PVal.num 16 ∧
    seriesMean ((dfC1.filter (fun r => dateOf r.time = 0)).map Row.temp)
      = PVal.num 12 ∧
    daily_avg dfC1 0
      ≠ seriesMean ((dfC1.filter (fun r => dateOf r.time = 0)).map Row.temp) := by
  have h1 : daily_avg dfC1 0 = PVal.num 16 := by
    simp [daily_avg, agg_day_night, groupRow, dfC1, mkSample, addDerived,
      keyOf, hourOf, dateOf, periodOfHour, seriesMean]
    norm_num
  have h2 : seriesMean ((dfC1.filter (fun r => dateOf r.time = 0)).map Row.temp)
      = PVal.num 12 := by
    simp [dfC1, mkSample, dateOf, seriesMean]
    norm_num
  refine ⟨h1, h2, ?_⟩
  rw [h1, h2]
  intro h
  rw [PVal.num.injEq] at h
  norm_num at h

/-- C1 (corrected): the Daily-average roll-up computed at line 463 runs a
`groupby(date)` over the already aggregated per-period rows, so for a
date with both periods present it equals the mean of the Day period-mean
and the Night period-mean — not the mean of all samples of the date, from
which it differs when the two periods hold unequal sample counts. -/
theorem C1_daily_avg_mean_of_period_means (df : List Row) (d : Nat)
    (hd : (df.map addDerived).filter (fun r => keyOf r = (d, "Day")) ≠ [])
    (hn : (df.map addDerived).filter (fun r => keyOf r = (d, "Night")) ≠ []) :
    daily_avg df d
      = PVal.num (((groupRow (df.map addDerived) (d, "Day")).temp
          + (groupRow (df.map addDerived) (d, "Night")).temp) / 2) := by
  classical
  obtain ⟨rD, hrD⟩ := List.exists_mem_of_ne_nil _ hd
  rw [List.mem_filter, decide_eq_true_eq] at hrD
  obtain ⟨rN, hrN⟩ := List.exists_mem_of_ne_nil _ hn
  rw [List.mem_filter, decide_eq_true_eq] at hrN
  have hkD : ((d, "Day") : Nat × String) ∈ ((df.map addDerived).map keyOf).dedup :=
    List.mem_dedup.mpr (List.mem_map.mpr ⟨rD, hrD.1, hrD.2⟩)
  have hkN : ((d, "Night") : Nat × String) ∈ ((df.map addDerived).map keyOf).dedup :=
    List.mem_dedup.mpr (List.mem_map.mpr ⟨rN, hrN.1, hrN.2⟩)
  have hfl : ((agg_day_night df).2).filter (fun a => a.date = d)
      = ((((df.map addDerived).map keyOf).dedup).filter
          (fun k => decide ((groupRow (df.map addDerived) k).date = d))).map
            (groupRow (df.map addDerived)) := by
    rw [agg_snd, filter_map_comm]
  have hLD : ((d, "Day") : Nat × String)
      ∈ (((df.map addDerived).map keyOf).dedup).filter
          (fun k => decide ((groupRow (df.map addDerived) k).date = d)) :=
    List.mem_filter.mpr ⟨hkD, by simp [groupRow_date]⟩
  have hLN : ((d, "Night") : Nat × String)
      ∈ (((df.map addDerived).map keyOf).dedup).filter
          (fun k => decide ((groupRow (df.map addDerived) k).date = d)) :=
    List.mem_filter.mpr ⟨hkN, by simp [groupRow_date]⟩
  have hsub : ∀ k ∈ (((df.map addDerived).map keyOf).dedup).filter
      (fun k => decide ((groupRow (df.map addDerived) k).date = d)),
      k = ((d, "Day") : Nat × String) ∨ k = ((d, "Night") : Nat × String) := by
    intro k hk
    rw [List.mem_filter] at hk
    obtain ⟨hk1, hk2⟩ := hk
    rw [List.mem_dedup, List.mem_map] at hk1
    obtain ⟨r, hr, hkr⟩ := hk1
    obtain ⟨r0, _, rfl⟩ := List.mem_map.mp hr
    rw [keyOf_addDerived] at hkr
    subst hkr
    rw [decide_eq_true_eq, groupRow_date] at hk2
    rcases periodOfHour_cases (hourOf r0.time) with hP | hP
    · left
      rw [hP]
      exact Prod.ext hk2 rfl
    · right
      rw [hP]
      exact Prod.ext hk2 rfl
  have hnodupL : ((((df.map addDerived).map keyOf).dedup).filter
      (fun k => decide ((groupRow (df.map addDerived) k).date = d))).Nodup :=
    (List.nodup_dedup _).filter _
  have hDN : ((d, "Day") : Nat × String) ≠ (d, "Night") := by simp
  have htf : ((((df.map addDerived).map keyOf).dedup).filter
      (fun k => decide ((groupRow (df.map addDerived) k).date = d))).toFinset
      = {((d, "Day") : Nat × String), (d, "Night")} := by
    ext k
    simp only [List.mem_toFinset, Finset.mem_insert, Finset.mem_singleton]
    constructor
    · exact hsub k
    · rintro (rfl | rfl)
      · exact hLD
      · exact hLN
  have hlenL : ((((df.map addDerived).map keyOf).dedup).filter
      (fun k => decide ((groupRow (df.map addDerived) k).date = d))).length = 2 := by
    rw [← List.toFinset_card_of_nodup hnodupL, htf,
      Finset.card_insert_of_not_mem (by simp), Finset.card_singleton]
  have hsum : ((((((df.map addDerived).map keyOf).dedup).filter
        (fun k => decide ((groupRow (df.map addDerived) k).date = d))).map
          (groupRow (df.map addDerived))).map AggRow.temp).sum
      = (groupRow (df.map addDerived) (d, "Day")).temp
        + (groupRow (df.map addDerived) (d, "Night")).temp := by
    rw [List.map_map, ← List.sum_toFinset _ hnodupL, htf, Finset.sum_pair hDN]
    rfl
  simp only [daily_avg, hfl, seriesMean]
  rw [List.length_map, List.length_map, hlenL, hsum]
  have hemp : (((((df.map addDerived).map keyOf).dedup).filter
        (fun k => decide ((groupRow (df.map addDerived) k).date = d))).map
          (groupRow (df.map addDerived))).map AggRow.temp ≠ [] := by
    intro hnil
    have := congrArg List.length hnil
    rw [List.length_map, List.length_map, hlenL] at this
    simp at this
  rw [if_neg (by simpa using hemp)]
  norm_num

/-- Witness for C1 on `dfC1` (both periods present on date 0). -/
theorem C1_daily_avg_mean_of_period_means_witness :
    daily_avg dfC1 0
      = PVal.num (((groupRow (dfC1.map addDerived) (0, "Day")).temp
          + (groupRow (dfC1.map addDerived) (0, "Night")).temp) / 2) :=
  C1_daily_avg_mean_of_period_means dfC1 0 (by decide) (by decide)

end WeatherApp
